import Mathlib

/-! Shallow embedding of the simulation-and-risk-analysis engine of
`src/2025_NASA_Space_Apps_Challenge/main.py` (class `AdvancedTempoProcessor`).

Conventions of the embedding:
* Python floats are modelled as rationals (`ℚ`); Python `int(...)` (truncation
  toward zero) is `pyInt`.
* Gaussian noise samples (`np.random.normal`) are explicit parameters: each
  call site of the Python code that draws a sample takes the drawn value as an
  argument, so every theorem quantifies over all possible samples.
* `datetime.utcnow()` is an explicit clock parameter (`ℕ`, seconds); the
  current hour is a separate `ℕ` parameter.
* `np.sin` is transcendental, hence not representable as a computable rational
  function; the historical-trend generator takes the sequence of sine values
  as an oracle parameter `sin08 : ℕ → ℚ` standing for `fun i => sin (0.8 * i)`.
* Python's `round(x, 2)` is `round2`; Python rounds floats half-to-even, the
  model rounds half-up, which differs only at exact ties on hundredths — no
  claim depends on tie behaviour.
-/

namespace TempoDashboard

/-- Area categories returned by `_classify_area` (Python strings). -/
inductive AreaType
  | urban_center
  | urban_center_high
  | urban_center_extreme
  | industrial
  | industrial_heavy
  | residential
deriving DecidableEq, Repr

/-- Risk levels (Python strings "Bajo", "Moderado", "Alto", "Muy Alto"). -/
inductive RiskLevel
  | Bajo
  | Moderado
  | Alto
  | MuyAlto
deriving DecidableEq, Repr

/-- Quality labels returned by `_calculate_quality` (Python strings). -/
inductive Quality
  | Buena
  | Moderada
  | Mala
  | MuyMala
  | Peligrosa
deriving DecidableEq, Repr

/-- Protection priorities (Python strings "Alta" / "Media"). -/
inductive ProtectionPriority
  | Alta
  | Media
deriving DecidableEq, Repr

/-- Python `int(q)`: truncation toward zero. -/
def pyInt (q : ℚ) : ℤ :=
  if q < 0 then -⌊-q⌋ else ⌊q⌋

/-- Python `round(x, 2)` (half-to-even on floats; modelled half-up, see header). -/
def round2 (x : ℚ) : ℚ :=
  (round (x * 100) : ℤ) / 100

/-- `_calculate_quality`: thresholds on the NO2 value. -/
def calculate_quality (no2_value : ℚ) : Quality :=
  if no2_value < 40 then .Buena
  else if no2_value < 80 then .Moderada
  else if no2_value < 120 then .Mala
  else if no2_value < 160 then .MuyMala
  else .Peligrosa

/-- Severity rank of a quality label: Buena < Moderada < Mala < MuyMala < Peligrosa. -/
def qualityRank : Quality → ℕ
  | .Buena => 0
  | .Moderada => 1
  | .Mala => 2
  | .MuyMala => 3
  | .Peligrosa => 4

/-- `_calculate_aqi`: the piecewise-linear AQI with Python `int` truncation. -/
def calculate_aqi (no2_value : ℚ) : ℤ :=
  if no2_value < 40 then pyInt (no2_value * 1.25)
  else if no2_value < 80 then pyInt (50 + (no2_value - 40) * 1.25)
  else if no2_value < 120 then pyInt (100 + (no2_value - 80) * 1.5)
  else if no2_value < 160 then pyInt (150 + (no2_value - 120) * 2)
  else min 300 (pyInt (200 + (no2_value - 160) * 2.5))

/-- `_classify_area` helper `_is_major_urban` (the `lon` argument is unused in
the source as well). -/
def is_major_urban (lat lon : ℚ) : Bool :=
  10 < |lat| ∧ |lat| < 60

/-- `_classify_area`: proximity checks against the fixed reference table,
first match wins. -/
def classify_area (lat lon : ℚ) : AreaType :=
  if |lat - 19.43| < 0.5 ∧ |lon + 99.13| < 0.5 then .urban_center_high
  else if |lat - 40.7| < 0.5 ∧ |lon + 74.0| < 0.5 then .urban_center
  else if |lat - 34.0| < 0.5 ∧ |lon + 118.2| < 0.5 then .urban_center_high
  else if |lat - 25.7| < 1.0 ∧ |lon + 100.3| < 1.0 then .industrial_heavy
  else if |lat - 32.5| < 1.0 ∧ |lon + 117.0| < 1.0 then .industrial
  else if |lat - 28.6| < 1.0 ∧ |lon - 77.2| < 1.0 then .urban_center_extreme
  else if |lat - 39.9| < 1.0 ∧ |lon - 116.4| < 1.0 then .urban_center_extreme
  else if is_major_urban lat lon then .urban_center
  else .residential

/-- `_identify_vulnerable_groups`: base groups extended per area type. -/
def identify_vulnerable_groups (area_type : AreaType) : List String :=
  let groups := ["children", "elderly", "asthmatics"]
  if area_type = .urban_center_high ∨ area_type = .urban_center_extreme then
    groups ++ ["schools", "hospitals", "outdoor_workers", "low_income"]
  else if area_type = .urban_center then
    groups ++ ["schools", "hospitals", "outdoor_workers"]
  else if area_type = .industrial ∨ area_type = .industrial_heavy then
    groups ++ ["schools", "low_income", "outdoor_workers"]
  else if area_type = .residential then
    groups ++ ["schools", "elderly_communities"]
  else groups

/-- `_calculate_risk_level`: base risk from the concentration thresholds, then
the area escalation; a base risk not named by an inner branch falls through to
the final `return base_risk` of the source. -/
def calculate_risk_level (no2_level : ℚ) (area_type : AreaType) : RiskLevel :=
  let base_risk : RiskLevel :=
    if no2_level > 150 then .MuyAlto
    else if no2_level > 100 then .Alto
    else if no2_level > 50 then .Moderado
    else .Bajo
  if area_type = .urban_center_extreme ∨ area_type = .industrial_heavy then
    match base_risk with
    | .Bajo => .Moderado
    | .Moderado => .Alto
    | .Alto => .MuyAlto
    | .MuyAlto => .MuyAlto
  else if area_type = .urban_center_high ∨ area_type = .industrial then
    match base_risk with
    | .Bajo => .Moderado
    | .Moderado => .Alto
    | r => r
  else base_risk

/-- `_get_risk_factors`: accumulated applicable tags, with the
"Condiciones normales" default when none apply. -/
def get_risk_factors (area_type : AreaType) (no2_level : ℚ) : List String :=
  let factors :=
    (if no2_level > 80 then ["Alta concentración de NO2"] else []) ++
    (if no2_level > 120 then ["Niveles peligrosos de contaminación"] else []) ++
    (if area_type = .urban_center_high ∨ area_type = .urban_center_extreme then
      ["Alta densidad de tráfico vehicular"] else []) ++
    (if area_type = .industrial ∨ area_type = .industrial_heavy then
      ["Proximidad a zonas industriales"] else []) ++
    (if area_type = .urban_center_extreme then
      ["Zona crítica de contaminación"] else [])
  if factors = [] then ["Condiciones normales"] else factors

/-- Output record of `_analyze_vulnerability` (the Python dict). -/
structure VulnerabilityAnalysis where
  area_type : AreaType
  vulnerable_groups : List String
  risk_level : RiskLevel
  risk_factors : List String
  protection_priority : ProtectionPriority
deriving DecidableEq, Repr

/-- `_analyze_vulnerability` (live path): priority is Alta exactly when the
risk level is in `['Alto', 'Muy Alto']`. -/
def analyze_vulnerability (lat lon : ℚ) (no2_level : ℚ) : VulnerabilityAnalysis :=
  let area_type := classify_area lat lon
  let risk_level := calculate_risk_level no2_level area_type
  { area_type := area_type
    vulnerable_groups := identify_vulnerable_groups area_type
    risk_level := risk_level
    risk_factors := get_risk_factors area_type no2_level
    protection_priority :=
      if risk_level = .Alto ∨ risk_level = .MuyAlto then .Alta else .Media }

/-- Output record of `_generate_recommendations` (the Python dict). -/
structure Recommendations where
  general : List String
  for_schools : List String
  for_elderly : List String
  for_health_centers : List String
  immediate_actions : List String
deriving DecidableEq, Repr

/-- `_generate_recommendations`: each field is the list the corresponding
`extend`/`append` calls of the source build (the `risk_level` argument is
passed but unused in the source as well). -/
def generate_recommendations (no2_level : ℚ) (risk_level : RiskLevel)
    (vulnerable_groups : List String) : Recommendations :=
  { general :=
      if no2_level > 80 then
        ["Evitar actividades al aire libre prolongadas",
         "Usar mascarilla en exteriores",
         "Mantener ventanas cerradas"]
      else if no2_level > 50 then
        ["Limitar actividades físicas intensas al aire libre",
         "Monitorear síntomas respiratorios"]
      else
        ["Calidad del aire aceptable, tomar precauciones normales"]
    for_schools :=
      if vulnerable_groups.contains "schools" then
        if no2_level > 70 then
          ["Suspender educación física al aire libre",
           "Mantener estudiantes en interiores durante recreo",
           "Activar sistema de purificación de aire en aulas"]
        else if no2_level > 50 then
          ["Reducir tiempo de actividades al aire libre",
           "Monitorear estudiantes con asma o condiciones respiratorias"]
        else []
      else []
    for_elderly :=
      if vulnerable_groups.contains "elderly" then
        if no2_level > 60 then
          ["Evitar salidas no esenciales",
           "Realizar ejercicios en interiores",
           "Monitorear síntomas respiratorios"]
        else if no2_level > 50 then
          ["Limitar tiempo al aire libre",
           "Tener medicamentos respiratorios a mano"]
        else []
      else []
    for_health_centers :=
      if vulnerable_groups.contains "hospitals" then
        if no2_level > 60 then
          ["Prepararse para posible aumento de casos respiratorios",
           "Revisar inventario de medicamentos para asma",
           "Alertar personal sobre condiciones ambientales"]
        else []
      else []
    immediate_actions :=
      if no2_level > 80 then ["Activar protocolos de calidad del aire"] else [] }

/-- `_get_base_no2_for_area`: the area baseline plus a Gaussian sample; the
sample (drawn with area-specific sigma 20/15/15/12/12/8 in the source) is the
explicit `noise` argument. -/
def get_base_no2_for_area (area_type : AreaType) (noise : ℚ) : ℚ :=
  match area_type with
  | .urban_center_extreme => 120 + noise
  | .urban_center_high => 80 + noise
  | .industrial_heavy => 90 + noise
  | .urban_center => 60 + noise
  | .industrial => 70 + noise
  | .residential => 30 + noise

/-- The urban factor lookup table of `_simulate_tempo_advanced`. -/
def urban_factor_map (area_type : AreaType) : ℚ :=
  match area_type with
  | .urban_center_extreme => 4.5
  | .urban_center_high => 3.2
  | .urban_center => 2.0
  | .industrial_heavy => 3.5
  | .industrial => 2.5
  | .residential => 1.0

/-- The time-of-day traffic multiplier of `_simulate_tempo_advanced`
(hour is `datetime.utcnow().hour`, in 0..23). -/
def traffic_pattern (hour : ℕ) : ℚ :=
  if (7 ≤ hour ∧ hour ≤ 9) ∨ (17 ≤ hour ∧ hour ≤ 20) then 1.8
  else if 12 ≤ hour ∧ hour ≤ 14 then 1.3
  else if 23 ≤ hour ∨ hour ≤ 5 then 0.6
  else 1.0

/-- The wind multiplier of `_simulate_tempo_advanced`. -/
def wind_factor (wind_speed : ℚ) : ℚ :=
  if wind_speed > 15 then 0.5
  else if wind_speed > 10 then 0.7
  else if wind_speed > 5 then 0.85
  else 1.0

/-- The temperature multiplier of `_simulate_tempo_advanced`. -/
def temp_factor (temp : ℚ) : ℚ :=
  if temp < 10 then 1.3
  else if temp > 30 then 1.2
  else 1.0

/-- `_simulate_tempo_advanced`: the returned `no2` value. `base_noise` is the
Gaussian sample inside `_get_base_no2_for_area`, `final_noise` the final
additive `np.random.normal(0, 3)` sample. -/
def simulate_tempo_advanced (lat lon : ℚ) (hour : ℕ) (wind_speed temp : ℚ)
    (base_noise final_noise : ℚ) : ℚ :=
  let area_type := classify_area lat lon
  let base_no2 := get_base_no2_for_area area_type base_noise
  max 5.0 (base_no2 * urban_factor_map area_type * traffic_pattern hour *
    wind_factor wind_speed * temp_factor temp + final_noise)

/-- One point of the historical trend or forecast sequences: the rounded `no2`
value and the attached quality label (the date/hour field carries no logic and
is omitted). -/
structure TrendPoint where
  no2 : ℚ
  quality : Quality
deriving DecidableEq, Repr

/-- One entry of `_generate_historical_trend`: `variation` is
`sin(i*0.8)*15 + np.random.normal(0, 8)`; the quality label is computed on the
floored value. -/
def trend_point (base_no2 variation : ℚ) : TrendPoint :=
  let no2_value := max 10 (base_no2 + variation)
  { no2 := round2 no2_value, quality := calculate_quality no2_value }

/-- `_generate_historical_trend`: seven points; the base is re-sampled inside
the loop (`base_noise i`), `sin08 i` stands for `sin(i * 0.8)` (oracle for the
transcendental sine), `noise i` for the `np.random.normal(0, 8)` sample. -/
def generate_historical_trend (area_type : AreaType) (sin08 : ℕ → ℚ)
    (base_noise noise : Fin 7 → ℚ) : List TrendPoint :=
  (List.finRange 7).map fun i =>
    trend_point (get_base_no2_for_area area_type (base_noise i))
      (sin08 i.1 * 15 + noise i)

/-- The traffic multiplier of `_generate_forecast` (note 1.9 for hours 17-20,
unlike `_simulate_tempo_advanced`). -/
def forecast_traffic_peak (future_hour : ℕ) : ℚ :=
  if 7 ≤ future_hour ∧ future_hour ≤ 9 then 1.8
  else if 17 ≤ future_hour ∧ future_hour ≤ 20 then 1.9
  else if 12 ≤ future_hour ∧ future_hour ≤ 14 then 1.3
  else if 23 ≤ future_hour ∨ future_hour ≤ 5 then 0.6
  else 1.0

/-- One entry of `_generate_forecast`: in the source the quality label is
computed on the raw `hourly_no2`, the stored value on `max(10, hourly_no2)`. -/
def forecast_point (base_no2 : ℚ) (future_hour : ℕ) (noise : ℚ) : TrendPoint :=
  let hourly_no2 := base_no2 * forecast_traffic_peak future_hour + noise
  { no2 := round2 (max 10 hourly_no2), quality := calculate_quality hourly_no2 }

/-- `_generate_forecast`: 24 points; the base is sampled once before the loop
(`base_noise`), `noise i` is the per-hour `np.random.normal(0, 5)` sample. -/
def generate_forecast (area_type : AreaType) (current_hour : ℕ)
    (base_noise : ℚ) (noise : Fin 24 → ℚ) : List TrendPoint :=
  (List.finRange 24).map fun i =>
    forecast_point (get_base_no2_for_area area_type base_noise)
      ((current_hour + i.1) % 24) (noise i)

/-- The weather fields of a dashboard result. -/
structure WeatherData where
  temperature : ℚ
  wind_speed : ℚ
  humidity : ℚ
deriving DecidableEq, Repr

/-- The parts of the Python dashboard dict the claims are about (the pm25
pass-through, timestamps, location echo, resolution label and risk-map stub
carry no logic and are omitted). -/
structure DashboardResult where
  no2_tropospheric : ℚ
  quality_index : Quality
  aqi_value : ℤ
  weather : WeatherData
  condition : String
  vulnerability_analysis : VulnerabilityAnalysis
  recommendations : Recommendations
  historical_trend : List TrendPoint
  forecast : List TrendPoint
  data_source : String
deriving DecidableEq, Repr

/-- The hardcoded recommendation lists of `_get_fallback_dashboard`. -/
def fallback_recommendations : Recommendations :=
  { general := ["Monitorear calidad del aire", "Evitar zonas de alto tráfico"]
    for_schools := ["Limitar recreo al aire libre si la calidad empeora"]
    for_elderly := ["Tomar precauciones normales"]
    for_health_centers := ["Estar preparado para consultas respiratorias"]
    immediate_actions := [] }

/-- All random samples and the clock hour that `_get_fallback_dashboard`
consumes. -/
structure FallbackInputs where
  fallback_base_noise : ℚ
  trend_base_noise : Fin 7 → ℚ
  trend_noise : Fin 7 → ℚ
  forecast_base_noise : ℚ
  forecast_noise : Fin 24 → ℚ
  current_hour : ℕ

/-- `_get_fallback_dashboard`: fixed weather, vulnerability fields computed
from `fallback_no2`, hardcoded recommendations, fresh trend/forecast, source
label "Fallback data"; note the priority is computed from `fallback_no2 > 80`
directly, not from the risk level. -/
def get_fallback_dashboard (lat lon : ℚ) (inp : FallbackInputs)
    (sin08 : ℕ → ℚ) : DashboardResult :=
  let area_type := classify_area lat lon
  let fallback_no2 := get_base_no2_for_area area_type inp.fallback_base_noise
  { no2_tropospheric := round2 fallback_no2
    quality_index := calculate_quality fallback_no2
    aqi_value := calculate_aqi fallback_no2
    weather := { temperature := 22.0, wind_speed := 5.0, humidity := 60.0 }
    condition := "Templado"
    vulnerability_analysis :=
      { area_type := area_type
        vulnerable_groups := identify_vulnerable_groups area_type
        risk_level := calculate_risk_level fallback_no2 area_type
        risk_factors := get_risk_factors area_type fallback_no2
        protection_priority := if fallback_no2 > 80 then .Alta else .Media }
    recommendations := fallback_recommendations
    historical_trend :=
      generate_historical_trend area_type sin08 inp.trend_base_noise inp.trend_noise
    forecast :=
      generate_forecast area_type inp.current_hour inp.forecast_base_noise
        inp.forecast_noise
    data_source := "Fallback data" }

/-- The TTL constant `self.cache_ttl = 300`. -/
def cache_ttl : ℕ := 300

/-- Python `timedelta.seconds` on a non-negative whole-second delta: the
seconds component after normalization into days/seconds/microseconds, i.e. the
total seconds modulo 86400 (NOT `total_seconds()`). -/
def timedelta_seconds (total_seconds : ℕ) : ℕ :=
  total_seconds % 86400

/-- The freshness test of `get_air_quality_dashboard`:
`(datetime.utcnow() - timestamp).seconds < self.cache_ttl`. -/
def cache_entry_is_hit (age_seconds : ℕ) : Bool :=
  timedelta_seconds age_seconds < cache_ttl

/-- The cache key `f"{round(lat, 2)}_{round(lon, 2)}"`, modelled as the pair
of rounded coordinates. -/
def cache_key (lat lon : ℚ) : ℚ × ℚ :=
  (round2 lat, round2 lon)

/-- `self.cache`: a map from key to (result, store-timestamp in seconds);
stores prepend so lookup sees the newest binding, like Python dict update. -/
abbrev Cache : Type :=
  List ((ℚ × ℚ) × DashboardResult × ℕ)

/-- The cache-read of `get_air_quality_dashboard`: the stored pair is returned
only when the key is present and the freshness test passes. -/
def cache_lookup (cache : Cache) (k : ℚ × ℚ) (now : ℕ) : Option DashboardResult :=
  match cache.lookup k with
  | some (r, t) => if cache_entry_is_hit (now - t) then some r else none
  | none => none

/-- `get_air_quality_dashboard`, with the body of the `try` block abstracted:
`live = some r` means the live path assembled result `r`; `live = none` means
an exception was raised somewhere inside the `try`, so the fallback result is
returned and the cache write is skipped. Returns the result together with the
cache state after the call. -/
def get_air_quality_dashboard (cache : Cache) (lat lon : ℚ) (now : ℕ)
    (live : Option DashboardResult) (inp : FallbackInputs) (sin08 : ℕ → ℚ) :
    DashboardResult × Cache :=
  let k := cache_key lat lon
  match cache_lookup cache k now with
  | some cached => (cached, cache)
  | none =>
    match live with
    | some r => (r, (k, r, now) :: cache)
    | none => (get_fallback_dashboard lat lon inp sin08, cache)

/-! Helper lemmas. -/

lemma pyInt_of_nonneg {q : ℚ} (h : 0 ≤ q) : pyInt q = ⌊q⌋ :=
  if_neg (not_lt.mpr h)

lemma pyInt_nonneg {q : ℚ} (h : 0 ≤ q) : 0 ≤ pyInt q := by
  rw [pyInt_of_nonneg h]
  exact Int.floor_nonneg.mpr h

lemma pyInt_mono {p q : ℚ} (h0 : 0 ≤ p) (hpq : p ≤ q) : pyInt p ≤ pyInt q := by
  rw [pyInt_of_nonneg h0, pyInt_of_nonneg (h0.trans hpq)]
  exact Int.floor_le_floor hpq

lemma pyInt_lt {q : ℚ} {n : ℤ} (h0 : 0 ≤ q) (h : q < (n : ℚ)) : pyInt q < n := by
  rw [pyInt_of_nonneg h0]
  exact Int.floor_lt.mpr h

lemma le_pyInt {q : ℚ} {n : ℤ} (h0 : 0 ≤ q) (h : (n : ℚ) ≤ q) : n ≤ pyInt q := by
  rw [pyInt_of_nonneg h0]
  exact Int.le_floor.mpr h

lemma classify_area_zero : classify_area 0 0 = .residential := by
  unfold classify_area is_major_urban
  norm_num [abs_of_nonneg, abs_of_nonpos]

/-- All-zero samples for the fallback path. -/
def zero_fallback_inputs : FallbackInputs :=
  ⟨0, fun _ => 0, fun _ => 0, 0, fun _ => 0, 0⟩

/-- Fallback samples making the simulated concentration at (0, 0) equal 90:
the area is residential (baseline 30) and the base noise sample is 60. -/
def fallback_inputs_90 : FallbackInputs :=
  ⟨60, fun _ => 0, fun _ => 0, 0, fun _ => 0, 0⟩

/-! Claim theorems. -/

/-- C6: for every coordinate, hour, weather snapshot and noise samples, the
concentration produced by `_simulate_tempo_advanced` is at least 5.0. -/
theorem simulate_concentration_min :
    ∀ (lat lon : ℚ) (hour : ℕ) (wind_speed temp base_noise final_noise : ℚ),
      (5 : ℚ) ≤ simulate_tempo_advanced lat lon hour wind_speed temp base_noise final_noise := by
  intro lat lon hour wind_speed temp base_noise final_noise
  unfold simulate_tempo_advanced
  exact le_trans (by norm_num) (le_max_left 5.0 _)

/-- C9: `_calculate_quality` is total (every concentration gets exactly the
label of its threshold interval) and monotone for the severity order
Buena < Moderada < Mala < Muy Mala < Peligrosa. -/
theorem quality_total_monotone :
    (∀ x y : ℚ, x ≤ y →
      qualityRank (calculate_quality x) ≤ qualityRank (calculate_quality y)) ∧
    (∀ x : ℚ,
      (x < 40 → calculate_quality x = .Buena) ∧
      (40 ≤ x → x < 80 → calculate_quality x = .Moderada) ∧
      (80 ≤ x → x < 120 → calculate_quality x = .Mala) ∧
      (120 ≤ x → x < 160 → calculate_quality x = .MuyMala) ∧
      (160 ≤ x → calculate_quality x = .Peligrosa)) := by
  constructor
  · intro x y hxy
    unfold calculate_quality
    split_ifs <;> simp [qualityRank] <;> linarith
  · intro x
    refine ⟨?_, ?_, ?_, ?_, ?_⟩ <;>
      · intros
        unfold calculate_quality
        split_ifs <;> first | rfl | linarith

/-- Witness for C9 at concrete concentrations 30 ≤ 100. -/
theorem quality_total_monotone_witness :
    qualityRank (calculate_quality 30) ≤ qualityRank (calculate_quality 100) :=
  quality_total_monotone.1 30 100 (by norm_num)

/-- The escalation table as the spec states it: base risk from the
concentration thresholds is escalated one step (capped) for extreme/heavy
areas, and only from Bajo or Moderado for high/industrial areas. -/
def base_risk_level (no2_level : ℚ) : RiskLevel :=
  if no2_level > 150 then .MuyAlto
  else if no2_level > 100 then .Alto
  else if no2_level > 50 then .Moderado
  else .Bajo

/-- Spec-side escalation step (see `base_risk_level`). -/
def escalate_risk (area_type : AreaType) (r : RiskLevel) : RiskLevel :=
  if area_type = .urban_center_extreme ∨ area_type = .industrial_heavy then
    match r with
    | .Bajo => .Moderado
    | .Moderado => .Alto
    | .Alto => .MuyAlto
    | .MuyAlto => .MuyAlto
  else if area_type = .urban_center_high ∨ area_type = .industrial then
    match r with
    | .Bajo => .Moderado
    | .Moderado => .Alto
    | .Alto => .Alto
    | .MuyAlto => .MuyAlto
  else r

/-- C7: `_calculate_risk_level` implements exactly the escalation table over
the base risk, and area urban_center_extreme with concentration 60 yields
Alto. -/
theorem risk_level_escalation :
    (∀ (c : ℚ) (area : AreaType),
      calculate_risk_level c area = escalate_risk area (base_risk_level c)) ∧
    calculate_risk_level 60 .urban_center_extreme = .Alto := by
  constructor
  · intro c area
    unfold calculate_risk_level escalate_risk base_risk_level
    cases area <;> split_ifs <;> rfl
  · norm_num [calculate_risk_level]

/-- C10: for every area type the vulnerable-group list contains children,
elderly, asthmatics and schools, so the school- and elderly-specific
recommendation rules are applicable (produce guidance above their
thresholds) for every classified area. -/
theorem vulnerable_groups_always_core :
    (∀ a : AreaType,
      "children" ∈ identify_vulnerable_groups a ∧
      "elderly" ∈ identify_vulnerable_groups a ∧
      "asthmatics" ∈ identify_vulnerable_groups a ∧
      "schools" ∈ identify_vulnerable_groups a) ∧
    (∀ (a : AreaType) (c : ℚ) (rl : RiskLevel), 70 < c →
      (generate_recommendations c rl (identify_vulnerable_groups a)).for_schools ≠ [] ∧
      (generate_recommendations c rl (identify_vulnerable_groups a)).for_elderly ≠ []) := by
  constructor
  · intro a
    cases a <;> simp [identify_vulnerable_groups]
  · intro a c rl h70
    have h60 : (60 : ℚ) < c := by linarith
    have hs : "schools" ∈ identify_vulnerable_groups a := by
      cases a <;> simp [identify_vulnerable_groups]
    have he : "elderly" ∈ identify_vulnerable_groups a := by
      cases a <;> simp [identify_vulnerable_groups]
    constructor <;> simp [generate_recommendations, hs, he, gt_iff_lt, h70, h60]

/-- Witness for C10 at area residential, concentration 90. -/
theorem vulnerable_groups_always_core_witness :
    (generate_recommendations 90 .Bajo
      (identify_vulnerable_groups .residential)).for_schools ≠ [] :=
  (vulnerable_groups_always_core.2 .residential 90 .Bajo (by norm_num)).1

/-- C4 counterexample: on the fallback path at (0, 0) with base noise 60 the
simulated concentration is 90 (> 80), so the priority is Alta although the
risk level is only Moderado (residential area, 90 ≤ 100, no escalation). -/
theorem fallback_priority_cx :
    (get_fallback_dashboard 0 0 fallback_inputs_90
      (fun _ => 0)).vulnerability_analysis.protection_priority = .Alta ∧
    (get_fallback_dashboard 0 0 fallback_inputs_90
      (fun _ => 0)).vulnerability_analysis.risk_level = .Moderado := by
  constructor
  · norm_num [get_fallback_dashboard, classify_area_zero, fallback_inputs_90,
      get_base_no2_for_area]
  · norm_num [get_fallback_dashboard, classify_area_zero, fallback_inputs_90,
      get_base_no2_for_area, calculate_risk_level]
    simp

/-- C4 amended: on the live path, priority is Alta iff the risk level is Alto
or Muy Alto; on the fallback path, priority is Alta iff the simulated
concentration exceeds 80 (independent of the risk level). -/
theorem protection_priority_rule :
    (∀ lat lon c : ℚ,
      (analyze_vulnerability lat lon c).protection_priority = .Alta ↔
        (analyze_vulnerability lat lon c).risk_level = .Alto ∨
        (analyze_vulnerability lat lon c).risk_level = .MuyAlto) ∧
    (∀ (lat lon : ℚ) (inp : FallbackInputs) (sin08 : ℕ → ℚ),
      (get_fallback_dashboard lat lon inp
        sin08).vulnerability_analysis.protection_priority = .Alta ↔
        80 < get_base_no2_for_area (classify_area lat lon) inp.fallback_base_noise) := by
  constructor
  · intro lat lon c
    cases h : calculate_risk_level c (classify_area lat lon) <;>
      simp [analyze_vulnerability, h]
  · intro lat lon inp sin08
    unfold get_fallback_dashboard
    dsimp only
    split_ifs with h
    · simpa using h
    · simpa using h

/-- Witness for C4 at (0, 0) with concentration 110 (risk Alto). -/
theorem protection_priority_rule_witness :
    (analyze_vulnerability 0 0 110).protection_priority = .Alta :=
  (protection_priority_rule.1 0 0 110).mpr
    (Or.inl (by
      norm_num [analyze_vulnerability, classify_area_zero, calculate_risk_level]
      simp))

/-- C5 counterexample: on the fallback path at (0, 0) with simulated
concentration 90 the returned general recommendations are the hardcoded
fallback lists, not the output of the tiered rules of
`_generate_recommendations` at concentration 90. -/
theorem fallback_recommendations_cx :
    (get_fallback_dashboard 0 0 fallback_inputs_90 (fun _ => 0)).recommendations.general ≠
      (generate_recommendations 90 (calculate_risk_level 90 (classify_area 0 0))
        (identify_vulnerable_groups (classify_area 0 0))).general := by
  simp [get_fallback_dashboard, fallback_recommendations, generate_recommendations,
    classify_area_zero, identify_vulnerable_groups]
  norm_num

/-- C5 amended: the fallback result carries the fixed default weather
(22.0 °C, wind 5.0, humidity 60.0, "Templado"); its vulnerability fields are
computed from the simulated concentration for the classified area; its
recommendations are the fixed hardcoded lists (not the tiered rules); its
trend and forecast are generated fresh from the area baseline. -/
theorem fallback_dashboard_structure :
    ∀ (lat lon : ℚ) (inp : FallbackInputs) (sin08 : ℕ → ℚ),
      (get_fallback_dashboard lat lon inp sin08).weather =
        { temperature := 22.0, wind_speed := 5.0, humidity := 60.0 } ∧
      (get_fallback_dashboard lat lon inp sin08).condition = "Templado" ∧
      (get_fallback_dashboard lat lon inp sin08).vulnerability_analysis.risk_level =
        calculate_risk_level
          (get_base_no2_for_area (classify_area lat lon) inp.fallback_base_noise)
          (classify_area lat lon) ∧
      (get_fallback_dashboard lat lon inp sin08).vulnerability_analysis.risk_factors =
        get_risk_factors (classify_area lat lon)
          (get_base_no2_for_area (classify_area lat lon) inp.fallback_base_noise) ∧
      (get_fallback_dashboard lat lon inp sin08).recommendations =
        fallback_recommendations ∧
      (get_fallback_dashboard lat lon inp sin08).historical_trend =
        generate_historical_trend (classify_area lat lon) sin08
          inp.trend_base_noise inp.trend_noise ∧
      (get_fallback_dashboard lat lon inp sin08).forecast =
        generate_forecast (classify_area lat lon) inp.current_hour
          inp.forecast_base_noise inp.forecast_noise := by
  intro lat lon inp sin08
  exact ⟨rfl, rfl, rfl, rfl, rfl, rfl, rfl⟩

/-- The hourly traffic multiplier as the amended spec sentence states it:
1.8 for hours 7-9, 1.9 for hours 17-20, 1.3 for hours 12-14, 0.6 for hours
23-5, otherwise 1.0. -/
def spec_forecast_peak (h : ℕ) : ℚ :=
  if h ∈ [7, 8, 9] then 1.8
  else if h ∈ [17, 18, 19, 20] then 1.9
  else if h ∈ [12, 13, 14] then 1.3
  else if h ∈ [23, 0, 1, 2, 3, 4, 5] then 0.6
  else 1.0

lemma forecast_peak_eq_spec (h : ℕ) (hh : h < 24) :
    forecast_traffic_peak h = spec_forecast_peak h := by
  interval_cases h <;> rfl

/-- C3 counterexample: at hour 17 the forecast multiplier of
`_generate_forecast` is 1.9, while the section-4.2 table
(`_simulate_tempo_advanced`) gives 1.8. -/
theorem forecast_peak_17_cx :
    forecast_traffic_peak 17 = 19/10 ∧ traffic_pattern 17 = 9/5 ∧
      forecast_traffic_peak 17 ≠ traffic_pattern 17 := by
  norm_num [forecast_traffic_peak, traffic_pattern]

/-- C3 amended: every forecast point is the area baseline times the forecast
traffic multiplier (1.8 for 7-9, 1.9 for 17-20, 1.3 for 12-14, 0.6 for 23-5,
else 1.0) plus the noise sample, floored at 10 with the quality label taken
on the raw value. -/
theorem forecast_uses_peak_table :
    (∀ h : ℕ, h < 24 → forecast_traffic_peak h = spec_forecast_peak h) ∧
    (∀ (area : AreaType) (current_hour : ℕ) (base_noise : ℚ) (noise : Fin 24 → ℚ),
      generate_forecast area current_hour base_noise noise =
        (List.finRange 24).map fun i =>
          { no2 := round2 (max 10 (get_base_no2_for_area area base_noise *
              spec_forecast_peak ((current_hour + i.1) % 24) + noise i)),
            quality := calculate_quality (get_base_no2_for_area area base_noise *
              spec_forecast_peak ((current_hour + i.1) % 24) + noise i) }) := by
  refine ⟨forecast_peak_eq_spec, ?_⟩
  intro area current_hour base_noise noise
  unfold generate_forecast
  refine List.map_congr_left ?_
  intro i _
  unfold forecast_point
  rw [forecast_peak_eq_spec ((current_hour + i.1) % 24) (Nat.mod_lt _ (by norm_num))]

/-- Witness for C3 at hour 17. -/
theorem forecast_uses_peak_table_witness :
    forecast_traffic_peak 17 = spec_forecast_peak 17 :=
  forecast_uses_peak_table.1 17 (by norm_num)

/-- C8: on a cache miss with a failing live path, the orchestrator returns
the fallback dashboard, whose source label is "Fallback data", and leaves the
cache exactly as it was. -/
theorem fallback_never_cached :
    ∀ (cache : Cache) (lat lon : ℚ) (now : ℕ) (inp : FallbackInputs)
      (sin08 : ℕ → ℚ),
      cache_lookup cache (cache_key lat lon) now = none →
      get_air_quality_dashboard cache lat lon now none inp sin08 =
        (get_fallback_dashboard lat lon inp sin08, cache) ∧
      (get_fallback_dashboard lat lon inp sin08).data_source = "Fallback data" := by
  intro cache lat lon now inp sin08 h
  refine ⟨?_, rfl⟩
  simp only [get_air_quality_dashboard, h]

/-- Witness for C8 on the empty cache at (0, 0). -/
theorem fallback_never_cached_witness :
    get_air_quality_dashboard [] 0 0 0 none zero_fallback_inputs (fun _ => 0) =
      (get_fallback_dashboard 0 0 zero_fallback_inputs (fun _ => 0), []) :=
  (fallback_never_cached [] 0 0 0 zero_fallback_inputs (fun _ => 0) rfl).1

/-- C2: the code's freshness test is `timedelta.seconds < 300`, i.e.
(age mod 86400) < 300, not `age < 300`: an entry stored exactly one day ago
(86400 s ≥ 300 s) is served from the cache instead of being recomputed, for
any live result and any coordinates. -/
theorem cache_hit_one_day_old_entry :
    (∀ (r : DashboardResult) (lat lon : ℚ) (live : Option DashboardResult)
      (inp : FallbackInputs) (sin08 : ℕ → ℚ),
      (get_air_quality_dashboard [(cache_key lat lon, r, 0)] lat lon 86400
        live inp sin08).1 = r) ∧
    cache_entry_is_hit 86400 = true ∧ ¬ (86400 < cache_ttl) := by
  refine ⟨?_, by norm_num [cache_entry_is_hit, timedelta_seconds, cache_ttl],
    by norm_num [cache_ttl]⟩
  intro r lat lon live inp sin08
  simp [get_air_quality_dashboard, cache_lookup, List.lookup,
    cache_entry_is_hit, timedelta_seconds, cache_ttl]

/-! Branch characterizations of `calculate_aqi`. -/

lemma aqi_branch1 {x : ℚ} (h : x < 40) :
    calculate_aqi x = pyInt (x * 1.25) := by
  unfold calculate_aqi
  rw [if_pos h]

lemma aqi_branch2 {x : ℚ} (h1 : 40 ≤ x) (h2 : x < 80) :
    calculate_aqi x = pyInt (50 + (x - 40) * 1.25) := by
  unfold calculate_aqi
  rw [if_neg (not_lt.mpr h1), if_pos h2]

lemma aqi_branch3 {x : ℚ} (h1 : 80 ≤ x) (h2 : x < 120) :
    calculate_aqi x = pyInt (100 + (x - 80) * 1.5) := by
  unfold calculate_aqi
  rw [if_neg (not_lt.mpr (by linarith)), if_neg (not_lt.mpr h1), if_pos h2]

lemma aqi_branch4 {x : ℚ} (h1 : 120 ≤ x) (h2 : x < 160) :
    calculate_aqi x = pyInt (150 + (x - 120) * 2) := by
  unfold calculate_aqi
  rw [if_neg (not_lt.mpr (by linarith)), if_neg (not_lt.mpr (by linarith)),
    if_neg (not_lt.mpr h1), if_pos h2]

lemma aqi_branch5 {x : ℚ} (h1 : 160 ≤ x) :
    calculate_aqi x = min 300 (pyInt (200 + (x - 160) * 2.5)) := by
  unfold calculate_aqi
  rw [if_neg (not_lt.mpr (by linarith)), if_neg (not_lt.mpr (by linarith)),
    if_neg (not_lt.mpr (by linarith)), if_neg (not_lt.mpr h1)]

lemma aqi_nonneg {x : ℚ} (hx : 0 ≤ x) : 0 ≤ calculate_aqi x := by
  rcases lt_or_le x 40 with h1 | h1
  · rw [aqi_branch1 h1]
    exact pyInt_nonneg (mul_nonneg hx (by norm_num))
  rcases lt_or_le x 80 with h2 | h2
  · rw [aqi_branch2 h1 h2]
    exact pyInt_nonneg (by linarith)
  rcases lt_or_le x 120 with h3 | h3
  · rw [aqi_branch3 h2 h3]
    exact pyInt_nonneg (by linarith)
  rcases lt_or_le x 160 with h4 | h4
  · rw [aqi_branch4 h3 h4]
    exact pyInt_nonneg (by linarith)
  · rw [aqi_branch5 h4]
    exact le_min (by norm_num) (pyInt_nonneg (by linarith))

lemma aqi_le_300 {x : ℚ} (hx : 0 ≤ x) : calculate_aqi x ≤ 300 := by
  rcases lt_or_le x 40 with h1 | h1
  · rw [aqi_branch1 h1]
    have := pyInt_lt (n := 50) (q := x * 1.25) (mul_nonneg hx (by norm_num)) (by push_cast; linarith)
    omega
  rcases lt_or_le x 80 with h2 | h2
  · rw [aqi_branch2 h1 h2]
    have := pyInt_lt (n := 100) (q := 50 + (x - 40) * 1.25) (by linarith)
      (by push_cast; linarith)
    omega
  rcases lt_or_le x 120 with h3 | h3
  · rw [aqi_branch3 h2 h3]
    have := pyInt_lt (n := 160) (q := 100 + (x - 80) * 1.5) (by linarith)
      (by push_cast; linarith)
    omega
  rcases lt_or_le x 160 with h4 | h4
  · rw [aqi_branch4 h3 h4]
    have := pyInt_lt (n := 230) (q := 150 + (x - 120) * 2) (by linarith)
      (by push_cast; linarith)
    omega
  · rw [aqi_branch5 h4]
    exact min_le_left _ _

lemma aqi_mono_low {x y : ℚ} (hx : 0 ≤ x) (hxy : x ≤ y) (hy : y < 120) :
    calculate_aqi x ≤ calculate_aqi y := by
  rcases lt_or_le x 40 with hx40 | hx40
  · rcases lt_or_le y 40 with hy40 | hy40
    · rw [aqi_branch1 hx40, aqi_branch1 hy40]
      exact pyInt_mono (mul_nonneg hx (by norm_num)) (by linarith)
    rcases lt_or_le y 80 with hy80 | hy80
    · rw [aqi_branch1 hx40, aqi_branch2 hy40 hy80]
      have hL := pyInt_lt (n := 50) (q := x * 1.25) (mul_nonneg hx (by norm_num)) (by push_cast; linarith)
      have hR := le_pyInt (n := 50) (q := 50 + (y - 40) * 1.25) (by linarith)
        (by push_cast; linarith)
      omega
    · rw [aqi_branch1 hx40, aqi_branch3 hy80 hy]
      have hL := pyInt_lt (n := 50) (q := x * 1.25) (mul_nonneg hx (by norm_num)) (by push_cast; linarith)
      have hR := le_pyInt (n := 100) (q := 100 + (y - 80) * 1.5) (by linarith)
        (by push_cast; linarith)
      omega
  rcases lt_or_le x 80 with hx80 | hx80
  · rcases lt_or_le y 80 with hy80 | hy80
    · rw [aqi_branch2 hx40 hx80, aqi_branch2 (by linarith) hy80]
      exact pyInt_mono (by linarith) (by linarith)
    · rw [aqi_branch2 hx40 hx80, aqi_branch3 hy80 hy]
      have hL := pyInt_lt (n := 100) (q := 50 + (x - 40) * 1.25) (by linarith)
        (by push_cast; linarith)
      have hR := le_pyInt (n := 100) (q := 100 + (y - 80) * 1.5) (by linarith)
        (by push_cast; linarith)
      omega
  · rw [aqi_branch3 hx80 (by linarith), aqi_branch3 (by linarith) hy]
    exact pyInt_mono (by linarith) (by linarith)

lemma aqi_mono_mid {x y : ℚ} (hx : 120 ≤ x) (hxy : x ≤ y) (hy : y < 160) :
    calculate_aqi x ≤ calculate_aqi y := by
  rw [aqi_branch4 hx (by linarith), aqi_branch4 (by linarith) hy]
  exact pyInt_mono (by linarith) (by linarith)

lemma aqi_mono_high {x y : ℚ} (hx : 160 ≤ x) (hxy : x ≤ y) :
    calculate_aqi x ≤ calculate_aqi y := by
  rw [aqi_branch5 hx, aqi_branch5 (hx.trans hxy)]
  exact min_le_min (le_refl 300) (pyInt_mono (by linarith) (by linarith))

/-- C1 counterexample: the AQI is not non-decreasing: concentration 119.9
maps to 159 but the larger concentration 120 maps to 150 (the table drops at
the 120 breakpoint, and likewise at 160). -/
theorem aqi_not_monotone_cx :
    (1199/10 : ℚ) < 120 ∧ calculate_aqi (1199/10) = 159 ∧
      calculate_aqi 120 = 150 := by
  refine ⟨by norm_num, ?_, ?_⟩ <;> norm_num [calculate_aqi, pyInt]

/-- C1 amended: the AQI lies in [0, 300] for every non-negative
concentration, AQI(200) = 300, the value follows the piecewise-linear
breakpoint table, and the AQI is non-decreasing within each of the regions
[0, 120), [120, 160) and [160, ∞) — but not across the 120 and 160
breakpoints, where it drops. -/
theorem aqi_bounded_piecewise_monotone :
    (∀ x : ℚ, 0 ≤ x → 0 ≤ calculate_aqi x ∧ calculate_aqi x ≤ 300) ∧
    calculate_aqi 200 = 300 ∧
    (∀ x : ℚ,
      (x < 40 → calculate_aqi x = pyInt (x * 1.25)) ∧
      (40 ≤ x → x < 80 → calculate_aqi x = pyInt (50 + (x - 40) * 1.25)) ∧
      (80 ≤ x → x < 120 → calculate_aqi x = pyInt (100 + (x - 80) * 1.5)) ∧
      (120 ≤ x → x < 160 → calculate_aqi x = pyInt (150 + (x - 120) * 2)) ∧
      (160 ≤ x → calculate_aqi x = min 300 (pyInt (200 + (x - 160) * 2.5)))) ∧
    (∀ x y : ℚ, 0 ≤ x → x ≤ y → y < 120 → calculate_aqi x ≤ calculate_aqi y) ∧
    (∀ x y : ℚ, 120 ≤ x → x ≤ y → y < 160 → calculate_aqi x ≤ calculate_aqi y) ∧
    (∀ x y : ℚ, 160 ≤ x → x ≤ y → calculate_aqi x ≤ calculate_aqi y) := by
  refine ⟨fun x hx => ⟨aqi_nonneg hx, aqi_le_300 hx⟩,
    by norm_num [calculate_aqi, pyInt],
    fun x => ⟨aqi_branch1, aqi_branch2, aqi_branch3, aqi_branch4, aqi_branch5⟩,
    fun x y => aqi_mono_low, fun x y => aqi_mono_mid, fun x y => aqi_mono_high⟩

/-- Witness for C1 at concentration 50. -/
theorem aqi_bounded_piecewise_monotone_witness :
    0 ≤ calculate_aqi 50 ∧ calculate_aqi 50 ≤ 300 :=
  aqi_bounded_piecewise_monotone.1 50 (by norm_num)

/-- Witness for C5 at (0, 0) with all-zero samples. -/
theorem fallback_dashboard_structure_witness :
    (get_fallback_dashboard 0 0 zero_fallback_inputs
      (fun _ => 0)).recommendations = fallback_recommendations :=
  (fallback_dashboard_structure 0 0 zero_fallback_inputs (fun _ => 0)).2.2.2.2.1

/-- Witness for C6 at (0, 0), hour 8, wind 3, temperature 20, zero noise. -/
theorem simulate_concentration_min_witness :
    (5 : ℚ) ≤ simulate_tempo_advanced 0 0 8 3 20 0 0 :=
  simulate_concentration_min 0 0 8 3 20 0 0

/-- Witness for C7 at concentration 60 and area urban_center_extreme. -/
theorem risk_level_escalation_witness :
    calculate_risk_level 60 .urban_center_extreme =
      escalate_risk .urban_center_extreme (base_risk_level 60) :=
  risk_level_escalation.1 60 .urban_center_extreme

end TempoDashboard
